import Mathlib

/-!
# Verification of the BSocket core (src/trunk/system/BSocket.c)

Shallow embedding of the non-blocking socket abstraction of BadVPN's
`BSocket.c`.  Pure computations (address translation, error-code mapping,
control-message construction and parsing, the receive quota, the handler
dispatcher) are translated into executable Lean functions; the OS syscall
layer (send/recv/connect/bind/... results, received ancillary data) is
abstracted as explicit outcome parameters fed to each operation, and the
socket's mutable fields are passed as an explicit state record.

The file is compiled against both preprocessor variants of the source: a
`Platform` parameter selects the POSIX (`#else`) or Windows
(`#ifdef BADVPN_USE_WINAPI`) branch wherever the two differ.
-/

namespace BadVPN

/-- Which preprocessor branch of BSocket.c is being modelled:
`posix` is the `#else` side, `windows` the `BADVPN_USE_WINAPI` side. -/
inductive Platform
  | posix
  | windows
deriving DecidableEq, Repr

/-- Socket kind: `BSOCKET_TYPE_STREAM` / `BSOCKET_TYPE_DGRAM`. -/
inductive SockType
  | STREAM
  | DGRAM
deriving DecidableEq, Repr

/-- The stable error taxonomy `BSOCKET_ERROR_*` from BSocket.h. -/
inductive BError
  | NONE
  | IN_PROGRESS
  | LATER
  | ADDRESS_NOT_AVAILABLE
  | ADDRESS_IN_USE
  | ACCESS_DENIED
  | CONNECTION_REFUSED
  | CONNECTION_RESET
  | CONNECTION_TIMED_OUT
  | UNKNOWN
deriving DecidableEq, Repr

/-- OS-reported error conditions, abstracting over the errno / WSA spelling:
`wouldBlock` is EAGAIN / EWOULDBLOCK / WSAEWOULDBLOCK, `connReset` is
ECONNRESET / WSAECONNRESET (connection reset by peer), `connRefused` is
ECONNREFUSED / WSAECONNREFUSED, `inProgress` is EINPROGRESS, and so on.
`otherCode` stands for any code not named in a switch of the source. -/
inductive OSError
  | wouldBlock
  | connRefused
  | connReset
  | addrNotAvail
  | addrInUse
  | accessDenied
  | inProgress
  | timedOut
  | otherCode
deriving DecidableEq, Repr

/-- The set of logical events (`BSOCKET_READ | BSOCKET_WRITE |
BSOCKET_ACCEPT | BSOCKET_CONNECT`), modelled as four flags instead of an
integer bitmask. -/
structure EventSet where
  read : Bool
  write : Bool
  accept : Bool
  connect : Bool
deriving DecidableEq, Repr

/-- The empty event set (`waitEvents = 0`). -/
def EventSet.none : EventSet := ⟨false, false, false, false⟩

/-- A single logical event; indexes the per-event handler table
(HANDLER_READ .. HANDLER_CONNECT). -/
inductive HEvent
  | read
  | write
  | accept
  | connect
deriving DecidableEq, Repr

/-- Membership of one logical event in an event set
(the C expression `events & BSOCKET_<E>`). -/
def EventSet.has (es : EventSet) : HEvent → Bool
  | .read => es.read
  | .write => es.write
  | .accept => es.accept
  | .connect => es.connect

/-- Set one logical event flag (the C `waitEvents |= event`). -/
def EventSet.set (es : EventSet) : HEvent → EventSet
  | .read => { es with read := true }
  | .write => { es with write := true }
  | .accept => { es with accept := true }
  | .connect => { es with connect := true }

/-- Clear one logical event flag (the C `waitEvents &= ~event`). -/
def EventSet.clear (es : EventSet) : HEvent → EventSet
  | .read => { es with read := false }
  | .write => { es with write := false }
  | .accept => { es with accept := false }
  | .connect => { es with connect := false }

/-- Presence flags of the per-event handler table `bs->handlers[4]`
(`true` means a non-NULL handler is installed). -/
structure HTable where
  hread : Bool
  hwrite : Bool
  haccept : Bool
  hconnect : Bool
deriving DecidableEq, Repr

/-- The empty handler table (all four slots NULL), as set by
`init_handlers`. -/
def HTable.empty : HTable := ⟨false, false, false, false⟩

/-- Look up the presence of a handler for one event. -/
def HTable.has (t : HTable) : HEvent → Bool
  | .read => t.hread
  | .write => t.hwrite
  | .accept => t.haccept
  | .connect => t.hconnect

/-- Update the presence of a handler for one event. -/
def HTable.setTo (t : HTable) (e : HEvent) (b : Bool) : HTable :=
  match e with
  | .read => { t with hread := b }
  | .write => { t with hwrite := b }
  | .accept => { t with haccept := b }
  | .connect => { t with hconnect := b }

/-- The mutable fields of `struct BSocket` that the verified operations
read or write.  `global_handler` and `handlers` record only handler
presence (the function pointers themselves are external behaviour).
The reactor reference, fd and debug object are external collaborators
and are omitted. -/
structure BSocket where
  type : SockType
  have_pktinfo : Bool
  error : BError
  global_handler : Bool
  handlers : HTable
  waitEvents : EventSet
  connecting_status : Nat
  connecting_result : BError
  recv_max : Int
  recv_num : Int
deriving DecidableEq, Repr

/-- The portable address type `BAddr` restricted to the two families
BSocket.c handles (`BADDR_TYPE_IPV4` / `BADDR_TYPE_IPV6`).  The IPv4 ip
is the 32-bit `s_addr` value, the IPv6 ip the 16 bytes of `s6_addr`;
both, like the port, are kept in network byte order and carried opaquely. -/
inductive BAddr
  | ipv4 (ip : Nat) (port : Nat)
  | ipv6 (ip : List Nat) (port : Nat)
deriving DecidableEq, Repr

/-- The local-IP hint type `BIPAddr`: `BADDR_TYPE_NONE` (as produced by
`BIPAddr_InitInvalid`), or an IPv4 / IPv6 address without port. -/
inductive BIPAddr
  | invalid
  | ipv4 (ip : Nat)
  | ipv6 (ip : List Nat)
deriving DecidableEq, Repr

/-- sizeof(struct sockaddr_in) on the modelled ABI. -/
def sizeof_sockaddr_in : Nat := 16

/-- sizeof(struct sockaddr_in6) on the modelled ABI. -/
def sizeof_sockaddr_in6 : Nat := 28

/-- The contents of the `struct sys_addr` union, discriminated by the
address family stored in `sa_family` (`inet` = AF_INET, `inet6` =
AF_INET6, `otherFam` = any other family). -/
inductive SysAddrData
  | inet (sin_port : Nat) (sin_addr : Nat)
  | inet6 (sin6_port : Nat) (sin6_flowinfo : Nat) (sin6_addr : List Nat)
      (sin6_scope_id : Nat)
  | otherFam
deriving DecidableEq, Repr

/-- `struct sys_addr`: an address union plus its length field. -/
structure SysAddr where
  len : Nat
  data : SysAddrData
deriving DecidableEq, Repr

/-- `addr_socket_to_sys`: convert a portable address to the OS sockaddr
form.  Mirrors the switch in BSocket.c lines 118-141: the structure is
zeroed first, so flowinfo and scope_id of an IPv6 address are 0. -/
def addr_socket_to_sys : BAddr → SysAddr
  | .ipv4 ip port =>
      { len := sizeof_sockaddr_in, data := .inet port ip }
  | .ipv6 ip port =>
      { len := sizeof_sockaddr_in6, data := .inet6 port 0 ip 0 }

/-- `addr_sys_to_socket`: convert an OS sockaddr back to the portable
form.  Mirrors the switch in BSocket.c lines 143-162; the debug ASSERTs
on the family and on `len` are modelled as `Option.none` results. -/
def addr_sys_to_socket (sa : SysAddr) : Option BAddr :=
  match sa.data with
  | .inet port ip =>
      if sa.len = sizeof_sockaddr_in then some (.ipv4 ip port) else none
  | .inet6 port _flowinfo ip _scope =>
      if sa.len = sizeof_sockaddr_in6 then some (.ipv6 ip port) else none
  | .otherFam => none

/-- `BSocket_Init` (lines 442-529), restricted to the successful path: the
initial values given to the socket fields.  `pktinfoOptOk` abstracts the
success of the `set_pktinfo` / `set_pktinfo6` setsockopt, which the code
consults only for DGRAM sockets; `defaultRecvMax` stands for the
`BSOCKET_DEFAULT_RECV_MAX` constant of BSocket.h (not part of src/). -/
def BSocket_Init (type : SockType) (pktinfoOptOk : Bool)
    (defaultRecvMax : Int) : BSocket :=
  { type := type
    have_pktinfo := decide (type = SockType.DGRAM) && pktinfoOptOk
    error := BError.NONE
    global_handler := false
    handlers := HTable.empty
    waitEvents := EventSet.none
    connecting_status := 0
    connecting_result := BError.NONE
    recv_max := defaultRecvMax
    recv_num := 0 }

/-- The common error switch of the data-transfer calls (`BSocket_Send`,
`BSocket_Recv`, `BSocket_SendTo`, `BSocket_RecvFrom`, `BSocket_SendToFrom`,
`BSocket_RecvFromTo` — the switches are textually identical in each):
POSIX handles EAGAIN/EWOULDBLOCK, ECONNREFUSED and ECONNRESET; Windows
handles WSAEWOULDBLOCK and WSAECONNRESET, substituting CONNECTION_REFUSED
for a reset reported on a DGRAM socket; everything else is UNKNOWN. -/
def map_data_error (p : Platform) (t : SockType) (e : OSError) : BError :=
  match p with
  | .posix =>
      match e with
      | .wouldBlock => BError.LATER
      | .connRefused => BError.CONNECTION_REFUSED
      | .connReset => BError.CONNECTION_RESET
      | _ => BError.UNKNOWN
  | .windows =>
      match e with
      | .wouldBlock => BError.LATER
      | .connReset =>
          if t = SockType.DGRAM then BError.CONNECTION_REFUSED
          else BError.CONNECTION_RESET
      | _ => BError.UNKNOWN

/-- `limit_recv` (lines 403-413): returns `true` (and leaves the state
unchanged) when the receive quota is exhausted; otherwise consumes one
unit of quota when a cap is active. -/
def limit_recv (bs : BSocket) : Bool × BSocket :=
  if bs.recv_max > 0 then
    if bs.recv_num ≥ bs.recv_max then (true, bs)
    else (false, { bs with recv_num := bs.recv_num + 1 })
  else (false, bs)

/-- Result signal of an operation returning `int`: `ok n` is a
non-negative return (byte count, or 0), `fail` is -1. -/
inductive SRes
  | ok (n : Nat)
  | fail
deriving DecidableEq, Repr

/-- Whether the success signal was returned. -/
def SRes.isOk : SRes → Bool
  | .ok _ => true
  | .fail => false

/-- Outcome of a plain OS data-transfer call (send / recv / sendto /
sendmsg): a byte count, or an error code. -/
inductive OSOut
  | ok (n : Nat)
  | err (e : OSError)
deriving DecidableEq, Repr

/-- `BSocket_Send` (lines 872-920).  The OS `send` call is abstracted by
`os`; the data pointer and `MSG_NOSIGNAL` flag do not influence the
modelled state. -/
def BSocket_Send (p : Platform) (bs : BSocket) (os : OSOut) :
    SRes × BSocket :=
  match os with
  | .ok n => (SRes.ok n, { bs with error := BError.NONE })
  | .err e => (SRes.fail, { bs with error := map_data_error p bs.type e })

/-- `BSocket_SendTo` (lines 971-1023).  Identical error handling to
`BSocket_Send`; the destination address is translated by
`addr_socket_to_sys` and handed to the OS. -/
def BSocket_SendTo (p : Platform) (bs : BSocket) (addr : BAddr)
    (os : OSOut) : SRes × BSocket × SysAddr :=
  let dest := addr_socket_to_sys addr
  match os with
  | .ok n => (SRes.ok n, { bs with error := BError.NONE }, dest)
  | .err e =>
      (SRes.fail, { bs with error := map_data_error p bs.type e }, dest)

/-- Result of a receive-family call: the signal, the new socket state,
and whether the OS receive primitive was actually invoked (the quota
check may fail first). -/
structure RecvRes where
  res : SRes
  bs : BSocket
  osCalled : Bool
deriving DecidableEq, Repr

/-- `BSocket_Recv` (lines 922-969): quota check first (returning LATER
without touching the OS when exhausted), then the OS `recv` with the
common error switch. -/
def BSocket_Recv (p : Platform) (bs : BSocket) (os : OSOut) : RecvRes :=
  let lim := limit_recv bs
  if lim.1 then
    ⟨SRes.fail, { lim.2 with error := BError.LATER }, false⟩
  else
    match os with
    | .ok n => ⟨SRes.ok n, { lim.2 with error := BError.NONE }, true⟩
    | .err e =>
        ⟨SRes.fail, { lim.2 with error := map_data_error p lim.2.type e },
          true⟩

/-- Outcome of an OS `recvfrom` call: byte count and source address, or
an error code. -/
inductive OSOutFrom
  | ok (n : Nat) (src : SysAddr)
  | err (e : OSError)
deriving DecidableEq, Repr

/-- Result of `BSocket_RecvFrom`: additionally the remote address written
through the out-parameter on success (`Option.none` when not written;
an inner `Option.none` from `addr_sys_to_socket` models its ASSERT). -/
structure RecvFromRes where
  res : SRes
  bs : BSocket
  osCalled : Bool
  addrOut : Option BAddr
deriving DecidableEq, Repr

/-- `BSocket_RecvFrom` (lines 1025-1078): quota check, OS `recvfrom`,
common error switch, and on success translation of the source address. -/
def BSocket_RecvFrom (p : Platform) (bs : BSocket) (os : OSOutFrom) :
    RecvFromRes :=
  let lim := limit_recv bs
  if lim.1 then
    ⟨SRes.fail, { lim.2 with error := BError.LATER }, false, none⟩
  else
    match os with
    | .ok n src =>
        ⟨SRes.ok n, { lim.2 with error := BError.NONE }, true,
          addr_sys_to_socket src⟩
    | .err e =>
        ⟨SRes.fail, { lim.2 with error := map_data_error p lim.2.type e },
          true, none⟩

/-! ## Datagram ancillary engine -/

/-- CMSG header alignment of the modelled ABI (alignment to
`sizeof(size_t)` = 8, as on Linux x86-64; the Windows `WSA_CMSG` macros
align the same way). -/
def CMSG_ALIGN (n : Nat) : Nat := ((n + 7) / 8) * 8

/-- sizeof(struct cmsghdr) (respectively WSACMSGHDR) on the modelled ABI. -/
def sizeof_cmsghdr : Nat := 16

/-- `CMSG_LEN(l)`: header plus payload, payload unpadded. -/
def CMSG_LEN (l : Nat) : Nat := CMSG_ALIGN sizeof_cmsghdr + l

/-- `CMSG_SPACE(l)`: header plus padded payload. -/
def CMSG_SPACE (l : Nat) : Nat := CMSG_ALIGN sizeof_cmsghdr + CMSG_ALIGN l

/-- sizeof(struct in_pktinfo): ifindex plus two in_addr fields. -/
def sizeof_in_pktinfo : Nat := 12

/-- sizeof(struct in6_pktinfo): 16 address bytes plus the interface index. -/
def sizeof_in6_pktinfo : Nat := 20

/-- cmsg_level values used by the engine. -/
inductive CLevel
  | IPPROTO_IP
  | IPPROTO_IPV6
deriving DecidableEq, Repr

/-- cmsg_type values used by the engine. -/
inductive CType
  | IP_PKTINFO
  | IPV6_PKTINFO
deriving DecidableEq, Repr

/-- `struct in_pktinfo` as written into an outgoing control record.  The
Windows variant of the structure has no `ipi_spec_dst` member; it is
modelled here as 0 on that platform (the record is memset to zero before
one field is stamped). -/
structure InPktinfo where
  ipi_ifindex : Nat
  ipi_spec_dst : Nat
  ipi_addr : Nat
deriving DecidableEq, Repr

/-- `struct in6_pktinfo` as written into an outgoing control record. -/
structure In6Pktinfo where
  ipi6_addr : List Nat
  ipi6_ifindex : Nat
deriving DecidableEq, Repr

/-- Payload of an outgoing control record. -/
inductive PktPayload
  | v4 (pi : InPktinfo)
  | v6 (pi : In6Pktinfo)
deriving DecidableEq, Repr

/-- The size in bytes of an outgoing payload, as passed to the CMSG
macros by the source. -/
def payloadSize : PktPayload → Nat
  | .v4 _ => sizeof_in_pktinfo
  | .v6 _ => sizeof_in6_pktinfo

/-- One ancillary record as laid out into the control buffer by
`BSocket_SendToFrom`. -/
structure SentCmsg where
  cmsg_level : CLevel
  cmsg_type : CType
  cmsg_len : Nat
  payload : PktPayload
deriving DecidableEq, Repr

/-- The control-record construction of `BSocket_SendToFrom`
(lines 1129-1154 Windows, 1197-1224 POSIX): the switch on
`local_addr->type` builds zero or one ancillary record and accumulates
`sum += CMSG_SPACE(...)`, which becomes the submitted control length. -/
def buildCtrl (p : Platform) (local_addr : BIPAddr) :
    List SentCmsg × Nat :=
  match local_addr with
  | .invalid => ([], 0)
  | .ipv4 ip =>
      let pi : InPktinfo :=
        match p with
        | .posix => { ipi_ifindex := 0, ipi_spec_dst := ip, ipi_addr := 0 }
        | .windows => { ipi_ifindex := 0, ipi_spec_dst := 0, ipi_addr := ip }
      ([{ cmsg_level := CLevel.IPPROTO_IP, cmsg_type := CType.IP_PKTINFO,
          cmsg_len := CMSG_LEN sizeof_in_pktinfo, payload := PktPayload.v4 pi }],
        CMSG_SPACE sizeof_in_pktinfo)
  | .ipv6 ip =>
      ([{ cmsg_level := CLevel.IPPROTO_IPV6, cmsg_type := CType.IPV6_PKTINFO,
          cmsg_len := CMSG_LEN sizeof_in6_pktinfo,
          payload := PktPayload.v6 { ipi6_addr := ip, ipi6_ifindex := 0 } }],
        CMSG_SPACE sizeof_in6_pktinfo)

/-- What `BSocket_SendToFrom` did: degraded to `BSocket_SendTo`, or
submitted a sendmsg with the given ancillary records and control length. -/
inductive STFAction
  | fellback
  | sentMsg (recs : List SentCmsg) (controllen : Nat)
deriving DecidableEq, Repr

/-- Result of `BSocket_SendToFrom`. -/
structure SendToFromRes where
  res : SRes
  bs : BSocket
  action : STFAction
deriving DecidableEq, Repr

/-- `BSocket_SendToFrom` (lines 1080-1251).  `wsaSendMsgAvail` abstracts
whether the `WSAIoctl(SIO_GET_EXTENSION_FUNCTION_POINTER)` lookup of
`WSASendMsg` succeeds (the check exists only in the Windows branch);
`os` abstracts the sendmsg / WSASendMsg outcome.  Without pktinfo support
— or without the extension pointer on Windows — the call degrades to
`BSocket_SendTo`. -/
def BSocket_SendToFrom (p : Platform) (wsaSendMsgAvail : Bool)
    (bs : BSocket) (addr : BAddr) (local_addr : BIPAddr) (os : OSOut) :
    SendToFromRes :=
  if !bs.have_pktinfo then
    let r := BSocket_SendTo p bs addr os
    ⟨r.1, r.2.1, STFAction.fellback⟩
  else if p = Platform.windows && !wsaSendMsgAvail then
    let r := BSocket_SendTo p bs addr os
    ⟨r.1, r.2.1, STFAction.fellback⟩
  else
    let ctrl := buildCtrl p local_addr
    match os with
    | .ok n =>
        ⟨SRes.ok n, { bs with error := BError.NONE },
          STFAction.sentMsg ctrl.1 ctrl.2⟩
    | .err e =>
        ⟨SRes.fail, { bs with error := map_data_error p bs.type e },
          STFAction.sentMsg ctrl.1 ctrl.2⟩

/-- A control record found in the buffer filled by recvmsg / WSARecvMsg.
The level/type match of the parse loop is folded into the constructors:
`ip_pktinfo` is a record with level IPPROTO_IP and type IP_PKTINFO (whose
payload carries `ipi_addr`), `ipv6_pktinfo` one with level IPPROTO_IPV6
and type IPV6_PKTINFO (payload carries `ipi6_addr`), and `other` any
record with a different level/type pair. -/
inductive RCtrl
  | ip_pktinfo (ipi_addr : Nat)
  | ipv6_pktinfo (ipi6_addr : List Nat)
  | other
deriving DecidableEq, Repr

/-- One step of the control-record parse loop of `BSocket_RecvFromTo`
(lines 1384-1393 Windows, 1398-1407 POSIX): a matching record overwrites
the local address, any other record leaves it unchanged. -/
def parse_step (acc : BIPAddr) : RCtrl → BIPAddr
  | .ip_pktinfo ip => BIPAddr.ipv4 ip
  | .ipv6_pktinfo ip => BIPAddr.ipv6 ip
  | .other => acc

/-- The whole parse loop: `BIPAddr_InitInvalid` first, then a fold over
the received control records in order. -/
def parse_pktinfo (l : List RCtrl) : BIPAddr :=
  l.foldl parse_step BIPAddr.invalid

/-- Outcome of an OS recvmsg / WSARecvMsg call: byte count, source
address and control records, or an error code. -/
inductive OSOutMsg
  | ok (n : Nat) (src : SysAddr) (ctrl : List RCtrl)
  | err (e : OSError)
deriving DecidableEq, Repr

/-- The recvfrom-level view of a recvmsg outcome (same byte count and
source, control data dropped); used to express that the fallback path
consumes the same OS receive. -/
def toFromOut : OSOutMsg → OSOutFrom
  | .ok n src _ => OSOutFrom.ok n src
  | .err e => OSOutFrom.err e

/-- Result of `BSocket_RecvFromTo`: as `RecvFromRes` plus the local-IP
out-parameter (`Option.none` when the out-parameter is not written). -/
structure RecvFromToRes where
  res : SRes
  bs : BSocket
  osCalled : Bool
  addrOut : Option BAddr
  localOut : Option BIPAddr
deriving DecidableEq, Repr

/-- `recvfromto_fallback` (lines 1253-1260): delegate to
`BSocket_RecvFrom` and, when it did not fail, report no local address. -/
def recvfromto_fallback (p : Platform) (bs : BSocket) (os : OSOutMsg) :
    RecvFromToRes :=
  let r := BSocket_RecvFrom p bs (toFromOut os)
  ⟨r.res, r.bs, r.osCalled, r.addrOut,
    if r.res.isOk then some BIPAddr.invalid else none⟩

/-- `BSocket_RecvFromTo` (lines 1262-1413).  `wsaRecvMsgAvail` abstracts
the Windows-only `WSARecvMsg` extension-pointer lookup.  Without pktinfo
support — or without the pointer on Windows — the call degrades to
`recvfromto_fallback`; otherwise: quota check, OS recvmsg with the common
error switch, then source-address translation, `BIPAddr_InitInvalid`, and
the parse loop over the received control records. -/
def BSocket_RecvFromTo (p : Platform) (wsaRecvMsgAvail : Bool)
    (bs : BSocket) (os : OSOutMsg) : RecvFromToRes :=
  if !bs.have_pktinfo then
    recvfromto_fallback p bs os
  else if p = Platform.windows && !wsaRecvMsgAvail then
    recvfromto_fallback p bs os
  else
    let lim := limit_recv bs
    if lim.1 then
      ⟨SRes.fail, { lim.2 with error := BError.LATER }, false, none, none⟩
    else
      match os with
      | .ok n src ctrl =>
          ⟨SRes.ok n, { lim.2 with error := BError.NONE }, true,
            addr_sys_to_socket src, some (parse_pktinfo ctrl)⟩
      | .err e =>
          ⟨SRes.fail,
            { lim.2 with error := map_data_error p lim.2.type e }, true,
            none, none⟩

/-! ## Connect state machine, bind, listen, accept, getpeername -/

/-- Outcome of an OS call with no success payload (connect, bind,
listen). -/
inductive OSOutSimple
  | ok
  | err (e : OSError)
deriving DecidableEq, Repr

/-- The OS error code that means a pending non-blocking connect:
EINPROGRESS on POSIX, WSAEWOULDBLOCK on Windows (the two switches in
`BSocket_Connect`). -/
def connect_pending (p : Platform) : OSError :=
  match p with
  | .posix => OSError.inProgress
  | .windows => OSError.wouldBlock

/-- Precondition of `BSocket_Connect`: the ASSERT
`bs->connecting_status == 0` (the IDLE state). -/
def BSocket_Connect_pre (bs : BSocket) : Prop := bs.connecting_status = 0

/-- `BSocket_Connect` (lines 682-712): synchronous completion sets
`error := NONE` and succeeds; the platform's pending code sets
`connecting_status := 1` (IN_PROGRESS) and `error := IN_PROGRESS` and
fails; any other error sets `error := UNKNOWN` and fails. -/
def BSocket_Connect (p : Platform) (bs : BSocket) (_addr : BAddr)
    (os : OSOutSimple) : SRes × BSocket :=
  match os with
  | .ok => (SRes.ok 0, { bs with error := BError.NONE })
  | .err e =>
      if e = connect_pending p then
        (SRes.fail,
          { bs with connecting_status := 1, error := BError.IN_PROGRESS })
      else
        (SRes.fail, { bs with error := BError.UNKNOWN })

/-- Precondition of `BSocket_GetConnectResult`: the ASSERT
`bs->connecting_status == 2` (the COMPLETED state). -/
def BSocket_GetConnectResult_pre (bs : BSocket) : Prop :=
  bs.connecting_status = 2

/-- `BSocket_GetConnectResult` (lines 714-721): reset the connect state
machine to IDLE and return the stored completion result. -/
def BSocket_GetConnectResult (bs : BSocket) : BError × BSocket :=
  (bs.connecting_result, { bs with connecting_status := 0 })

/-- The error switch of `BSocket_Bind` (lines 739-764): POSIX names
EADDRNOTAVAIL, EADDRINUSE and EACCES; Windows names WSAEADDRNOTAVAIL and
WSAEADDRINUSE; anything else is UNKNOWN. -/
def map_bind_error (p : Platform) (e : OSError) : BError :=
  match p, e with
  | _, .addrNotAvail => BError.ADDRESS_NOT_AVAILABLE
  | _, .addrInUse => BError.ADDRESS_IN_USE
  | .posix, .accessDenied => BError.ACCESS_DENIED
  | _, _ => BError.UNKNOWN

/-- `BSocket_Bind` (lines 723-769).  The best-effort SO_REUSEADDR step
for STREAM sockets only logs on failure and does not change the modelled
state. -/
def BSocket_Bind (p : Platform) (bs : BSocket) (addr : BAddr)
    (os : OSOutSimple) : SRes × BSocket × SysAddr :=
  let dest := addr_socket_to_sys addr
  match os with
  | .ok => (SRes.ok 0, { bs with error := BError.NONE }, dest)
  | .err e => (SRes.fail, { bs with error := map_bind_error p e }, dest)

/-- `BSocket_Listen` (lines 771-798).  Identical on both platforms:
EADDRINUSE / WSAEADDRINUSE maps to ADDRESS_IN_USE, everything else to
UNKNOWN.  A negative backlog is replaced by `BSOCKET_DEFAULT_BACKLOG`
before the OS call, which does not affect the modelled state. -/
def BSocket_Listen (bs : BSocket) (os : OSOutSimple) : SRes × BSocket :=
  match os with
  | .ok => (SRes.ok 0, { bs with error := BError.NONE })
  | .err e =>
      if e = OSError.addrInUse then
        (SRes.fail, { bs with error := BError.ADDRESS_IN_USE })
      else
        (SRes.fail, { bs with error := BError.UNKNOWN })

/-- Outcome of the OS `accept` call: a new fd with the peer address, or
an error code. -/
inductive AcceptOut
  | ok (src : SysAddr)
  | err (e : OSError)
deriving DecidableEq, Repr

/-- `BSocket_Accept` (lines 800-870).  `wantNew` is whether `newsock` is
non-NULL (if not, the accepted fd is closed immediately); `setupOk`
abstracts success of `set_nonblocking` plus `init_event_backend` on the
new socket (failure closes the fd and reports UNKNOWN); `wantAddr` is
whether `addr` is non-NULL.  Would-block maps to LATER, any other accept
error to UNKNOWN.  The out-parameter address, written only on the
successful path, is returned as the third component. -/
def BSocket_Accept (bs : BSocket) (os : AcceptOut) (wantNew : Bool)
    (setupOk : Bool) (wantAddr : Bool) : SRes × BSocket × Option BAddr :=
  match os with
  | .err e =>
      if e = OSError.wouldBlock then
        (SRes.fail, { bs with error := BError.LATER }, none)
      else
        (SRes.fail, { bs with error := BError.UNKNOWN }, none)
  | .ok src =>
      if wantNew && !setupOk then
        (SRes.fail, { bs with error := BError.UNKNOWN }, none)
      else
        (SRes.ok 0, { bs with error := BError.NONE },
          if wantAddr then addr_sys_to_socket src else none)

/-- Outcome of the OS `getpeername` call. -/
inductive PeerOut
  | ok (src : SysAddr)
  | err
deriving DecidableEq, Repr

/-- `BSocket_GetPeerName` (lines 1415-1431): any failure is UNKNOWN; on
success the peer address is translated and `error := NONE`. -/
def BSocket_GetPeerName (bs : BSocket) (os : PeerOut) :
    SRes × BSocket × Option BAddr :=
  match os with
  | .err => (SRes.fail, { bs with error := BError.UNKNOWN }, none)
  | .ok src =>
      (SRes.ok 0, { bs with error := BError.NONE },
        addr_sys_to_socket src)

/-! ## Event handler table and dispatcher -/

/-- `BSocket_SetRecvMax` precondition: the ASSERT
`max > 0 || max == -1`. -/
def BSocket_SetRecvMax_pre (max : Int) : Prop := max > 0 ∨ max = -1

/-- `BSocket_SetRecvMax` (lines 547-553): store the new cap and reset
the per-dispatch counter. -/
def BSocket_SetRecvMax (bs : BSocket) (max : Int) : BSocket :=
  { bs with recv_max := max, recv_num := 0 }

/-- `BSocket_AddGlobalEventHandler` precondition (lines 560-567): a
handler is supplied, none is installed yet, and no per-event handler
exists. -/
def BSocket_AddGlobalEventHandler_pre (bs : BSocket) : Prop :=
  bs.global_handler = false ∧ bs.handlers = HTable.empty

/-- `BSocket_AddGlobalEventHandler` (lines 560-571): record the global
handler (presence only; the function pointer is external behaviour). -/
def BSocket_AddGlobalEventHandler (bs : BSocket) : BSocket :=
  { bs with global_handler := true }

/-- `BSocket_RemoveGlobalEventHandler` (lines 573-579): clear the global
handler and zero `waitEvents` (without reprogramming the backend). -/
def BSocket_RemoveGlobalEventHandler (bs : BSocket) : BSocket :=
  { bs with global_handler := false, waitEvents := EventSet.none }

/-- `BSocket_SetGlobalEvents` precondition: the ASSERT that a global
handler is installed. -/
def BSocket_SetGlobalEvents_pre (bs : BSocket) : Prop :=
  bs.global_handler = true

/-- `BSocket_SetGlobalEvents` (lines 581-590): overwrite `waitEvents`
with the given mask and reprogram the backend. -/
def BSocket_SetGlobalEvents (bs : BSocket) (events : EventSet) : BSocket :=
  { bs with waitEvents := events }

/-- `BSocket_AddEventHandler` precondition (lines 592-601): a handler is
supplied, no global handler is installed, and the slot is free. -/
def BSocket_AddEventHandler_pre (bs : BSocket) (e : HEvent) : Prop :=
  bs.global_handler = false ∧ bs.handlers.has e = false

/-- `BSocket_AddEventHandler` (lines 592-606): fill the handler slot. -/
def BSocket_AddEventHandler (bs : BSocket) (e : HEvent) : BSocket :=
  { bs with handlers := bs.handlers.setTo e true }

/-- `BSocket_EnableEvent` precondition (lines 625-655): the NDEBUG-guarded
compatibility ASSERTs (READ/WRITE exclude ACCEPT and CONNECT; ACCEPT
excludes READ, WRITE, CONNECT; CONNECT excludes READ, WRITE, ACCEPT),
plus a handler for the event and the event not yet enabled. -/
def BSocket_EnableEvent_pre (bs : BSocket) (e : HEvent) : Prop :=
  (match e with
    | .read | .write =>
        bs.waitEvents.accept = false ∧ bs.waitEvents.connect = false
    | .accept =>
        bs.waitEvents.read = false ∧ bs.waitEvents.write = false ∧
          bs.waitEvents.connect = false
    | .connect =>
        bs.waitEvents.read = false ∧ bs.waitEvents.write = false ∧
          bs.waitEvents.accept = false) ∧
  bs.handlers.has e = true ∧ bs.waitEvents.has e = false

/-- `BSocket_EnableEvent` (lines 625-662): set the event flag and
reprogram the backend. -/
def BSocket_EnableEvent (bs : BSocket) (e : HEvent) : BSocket :=
  { bs with waitEvents := bs.waitEvents.set e }

/-- `BSocket_DisableEvent` precondition (lines 664-673): a handler for
the event exists and the event is enabled. -/
def BSocket_DisableEvent_pre (bs : BSocket) (e : HEvent) : Prop :=
  bs.handlers.has e = true ∧ bs.waitEvents.has e = true

/-- `BSocket_DisableEvent` (lines 664-680): clear the event flag and
reprogram the backend. -/
def BSocket_DisableEvent (bs : BSocket) (e : HEvent) : BSocket :=
  { bs with waitEvents := bs.waitEvents.clear e }

/-- `BSocket_RemoveEventHandler` precondition (line 614): a handler for
the event exists. -/
def BSocket_RemoveEventHandler_pre (bs : BSocket) (e : HEvent) : Prop :=
  bs.handlers.has e = true

/-- `BSocket_RemoveEventHandler` (lines 608-623): first auto-disable the
event if it is enabled, then clear the handler slot. -/
def BSocket_RemoveEventHandler (bs : BSocket) (e : HEvent) : BSocket :=
  let bs1 := if bs.waitEvents.has e then BSocket_DisableEvent bs e else bs
  { bs1 with handlers := bs1.handlers.setTo e false }

/-- One handler invocation performed by the dispatcher. -/
inductive DispatchCall
  | global (events : EventSet)
  | perEvent (e : HEvent)
deriving DecidableEq, Repr

/-- The ordered list of events present in a returned-event set, in the
fixed dispatch order READ, WRITE, ACCEPT, CONNECT of `call_handlers`. -/
def enabledEvents (es : EventSet) : List HEvent :=
  (if es.read then [HEvent.read] else []) ++
  (if es.write then [HEvent.write] else []) ++
  (if es.accept then [HEvent.accept] else []) ++
  (if es.connect then [HEvent.connect] else [])

/-- The per-event half of `call_handlers` (the four guarded blocks of
lines 191-222), iterating over the ordered present events: each handler
is invoked inside a DEAD_ENTER/DEAD_LEAVE pair, and if `DEAD_LEAVE`
reports that the handler destroyed the socket (`kills e`), the function
returns at once — later handlers are not invoked and the state is gone
(`Option.none`; the code performs no socket-field write after a handler
call). -/
def dispatchRun (bs : BSocket) (kills : HEvent → Bool) :
    List HEvent → List DispatchCall × Option BSocket
  | [] => ([], some bs)
  | e :: rest =>
      if kills e then ([DispatchCall.perEvent e], none)
      else
        let r := dispatchRun bs kills rest
        (DispatchCall.perEvent e :: r.1, r.2)

/-- `call_handlers` (lines 181-223): reset `recv_num`, then either invoke
the global handler once with the whole returned-event set, or run the
per-event handlers in the fixed order with destruction detection.
`globalInstalled` is whether `bs->global_handler` is non-NULL; `kills e`
is whether the handler for `e` destroys the socket; the first component
of the result is the sequence of handler invocations made. -/
def call_handlers (bs : BSocket) (returned : EventSet)
    (globalInstalled : Bool) (kills : HEvent → Bool) :
    List DispatchCall × Option BSocket :=
  let bs1 : BSocket := { bs with recv_num := 0 }
  if globalInstalled then ([DispatchCall.global returned], some bs1)
  else dispatchRun bs1 kills (enabledEvents returned)

/-- Iterated `BSocket_Recv` calls, threading the socket state through a
list of OS outcomes (the receives a handler performs between two
dispatches). -/
def iterRecv (p : Platform) (bs : BSocket) : List OSOut → BSocket
  | [] => bs
  | o :: rest => iterRecv p (BSocket_Recv p bs o).bs rest

/-- The mutual-exclusion invariant on the enabled-event set: no two of
the families (READ or WRITE), (ACCEPT), (CONNECT) are enabled at
once (spec invariant 3; enforced by the NDEBUG asserts of
`BSocket_EnableEvent`). -/
def eventsCompatible (es : EventSet) : Bool :=
  !((es.read || es.write) && (es.accept || es.connect)) &&
    !(es.accept && es.connect)

/-- C8: converting a portable IPv4 or IPv6 address to the OS sockaddr form
and back yields the original address: `from_os(to_os(a)) = a`. -/
theorem c8_addr_roundtrip :
    ∀ a : BAddr, addr_sys_to_socket (addr_socket_to_sys a) = some a := by
  intro a
  cases a <;> simp [addr_socket_to_sys, addr_sys_to_socket]

/-- The quota check never changes the socket kind. -/
theorem limit_recv_type (bs : BSocket) : (limit_recv bs).2.type = bs.type := by
  unfold limit_recv
  split
  · split <;> rfl
  · rfl

/-- The quota check never changes the error slot. -/
theorem limit_recv_error (bs : BSocket) :
    (limit_recv bs).2.error = bs.error := by
  unfold limit_recv
  split
  · split <;> rfl
  · rfl

/-- On the Windows side the common data-transfer error switch maps an
OS-reported reset by the socket kind. -/
theorem map_data_error_windows_reset (t : SockType) :
    map_data_error Platform.windows t OSError.connReset =
      (if t = SockType.DGRAM then BError.CONNECTION_REFUSED
       else BError.CONNECTION_RESET) := rfl

/-- A failing OS `recv` (quota permitting) leaves the common error map's
verdict in the error slot. -/
theorem recv_err_error (p : Platform) (bs : BSocket) (e : OSError)
    (h : (limit_recv bs).1 = false) :
    (BSocket_Recv p bs (OSOut.err e)).bs.error =
      map_data_error p bs.type e := by
  unfold BSocket_Recv
  simp [h, limit_recv_type]

/-- A failing OS `recvfrom` (quota permitting) leaves the common error
map's verdict in the error slot. -/
theorem recvfrom_err_error (p : Platform) (bs : BSocket) (e : OSError)
    (h : (limit_recv bs).1 = false) :
    (BSocket_RecvFrom p bs (OSOutFrom.err e)).bs.error =
      map_data_error p bs.type e := by
  unfold BSocket_RecvFrom
  simp [h, limit_recv_type]

/-- A failing OS send on any path of `BSocket_SendToFrom` (fallback or
sendmsg) leaves the common error map's verdict in the error slot. -/
theorem sendtofrom_err_error (p : Platform) (av : Bool) (bs : BSocket)
    (addr : BAddr) (la : BIPAddr) (e : OSError) :
    (BSocket_SendToFrom p av bs addr la (OSOut.err e)).bs.error =
      map_data_error p bs.type e := by
  unfold BSocket_SendToFrom BSocket_SendTo
  cases hp : bs.have_pktinfo <;> cases p <;> cases av <;> simp [hp]

/-- A failing OS receive on any path of `BSocket_RecvFromTo` (fallback or
recvmsg), quota permitting, leaves the common error map's verdict in the
error slot. -/
theorem recvfromto_err_error (p : Platform) (av : Bool) (bs : BSocket)
    (e : OSError) (h : (limit_recv bs).1 = false) :
    (BSocket_RecvFromTo p av bs (OSOutMsg.err e)).bs.error =
      map_data_error p bs.type e := by
  unfold BSocket_RecvFromTo recvfromto_fallback toFromOut
  cases hp : bs.have_pktinfo <;> cases p <;> cases av <;>
    simp [hp, recvfrom_err_error _ _ _ h, h, limit_recv_type]

/-- C1 (counterexample): on the POSIX side, an OS-reported connection
reset (ECONNRESET) on a DGRAM socket is mapped to CONNECTION_RESET, not
CONNECTION_REFUSED as the claim states. -/
theorem c1_counterexample :
    (BSocket_Send Platform.posix (BSocket_Init SockType.DGRAM true 40)
        (OSOut.err OSError.connReset)).2.error = BError.CONNECTION_RESET ∧
      BError.CONNECTION_RESET ≠ BError.CONNECTION_REFUSED :=
  ⟨rfl, by decide⟩

/-- C1 (amended): only the Windows branch remaps an OS-reported
connection reset on a DGRAM socket to CONNECTION_REFUSED (and keeps
CONNECTION_RESET on STREAM); the POSIX branch maps ECONNRESET to
CONNECTION_RESET regardless of the socket kind, with ECONNREFUSED — the
errno carrying the asynchronous ICMP report there — mapping to
CONNECTION_REFUSED.  This holds across send, send_to, recv, recv_from,
send_to_from and recv_from_to (receives under an unexhausted quota). -/
theorem c1_amended :
    ∀ (bs : BSocket) (addr : BAddr) (la : BIPAddr) (av : Bool),
      (limit_recv bs).1 = false →
      ((BSocket_Send Platform.windows bs (OSOut.err OSError.connReset)).2.error
          = (if bs.type = SockType.DGRAM then BError.CONNECTION_REFUSED
             else BError.CONNECTION_RESET)) ∧
      ((BSocket_Send Platform.posix bs (OSOut.err OSError.connReset)).2.error
          = BError.CONNECTION_RESET) ∧
      ((BSocket_Send Platform.posix bs (OSOut.err OSError.connRefused)).2.error
          = BError.CONNECTION_REFUSED) ∧
      ((BSocket_SendTo Platform.windows bs addr
            (OSOut.err OSError.connReset)).2.1.error
          = (if bs.type = SockType.DGRAM then BError.CONNECTION_REFUSED
             else BError.CONNECTION_RESET)) ∧
      ((BSocket_SendTo Platform.posix bs addr
            (OSOut.err OSError.connReset)).2.1.error
          = BError.CONNECTION_RESET) ∧
      ((BSocket_Recv Platform.windows bs (OSOut.err OSError.connReset)).bs.error
          = (if bs.type = SockType.DGRAM then BError.CONNECTION_REFUSED
             else BError.CONNECTION_RESET)) ∧
      ((BSocket_Recv Platform.posix bs (OSOut.err OSError.connReset)).bs.error
          = BError.CONNECTION_RESET) ∧
      ((BSocket_RecvFrom Platform.windows bs
            (OSOutFrom.err OSError.connReset)).bs.error
          = (if bs.type = SockType.DGRAM then BError.CONNECTION_REFUSED
             else BError.CONNECTION_RESET)) ∧
      ((BSocket_RecvFrom Platform.posix bs
            (OSOutFrom.err OSError.connReset)).bs.error
          = BError.CONNECTION_RESET) ∧
      ((BSocket_SendToFrom Platform.windows av bs addr la
            (OSOut.err OSError.connReset)).bs.error
          = (if bs.type = SockType.DGRAM then BError.CONNECTION_REFUSED
             else BError.CONNECTION_RESET)) ∧
      ((BSocket_SendToFrom Platform.posix av bs addr la
            (OSOut.err OSError.connReset)).bs.error
          = BError.CONNECTION_RESET) ∧
      ((BSocket_RecvFromTo Platform.windows av bs
            (OSOutMsg.err OSError.connReset)).bs.error
          = (if bs.type = SockType.DGRAM then BError.CONNECTION_REFUSED
             else BError.CONNECTION_RESET)) ∧
      ((BSocket_RecvFromTo Platform.posix av bs
            (OSOutMsg.err OSError.connReset)).bs.error
          = BError.CONNECTION_RESET) := by
  intro bs addr la av hlim
  refine ⟨map_data_error_windows_reset bs.type, rfl, rfl,
    map_data_error_windows_reset bs.type, rfl, ?_, ?_, ?_, ?_, ?_, ?_, ?_, ?_⟩
  · rw [recv_err_error _ _ _ hlim, map_data_error_windows_reset]
  · rw [recv_err_error _ _ _ hlim]; rfl
  · rw [recvfrom_err_error _ _ _ hlim, map_data_error_windows_reset]
  · rw [recvfrom_err_error _ _ _ hlim]; rfl
  · rw [sendtofrom_err_error, map_data_error_windows_reset]
  · rw [sendtofrom_err_error]; rfl
  · rw [recvfromto_err_error _ _ _ _ hlim, map_data_error_windows_reset]
  · rw [recvfromto_err_error _ _ _ _ hlim]; rfl

/-- C1 (amended) witness: concrete evaluations through the amended
theorem at a DGRAM socket with a fresh quota. -/
theorem c1_amended_witness :
    (limit_recv (BSocket_Init SockType.DGRAM true 40)).1 = false ∧
    (BSocket_Recv Platform.windows (BSocket_Init SockType.DGRAM true 40)
        (OSOut.err OSError.connReset)).bs.error = BError.CONNECTION_REFUSED ∧
    (BSocket_Recv Platform.posix (BSocket_Init SockType.DGRAM true 40)
        (OSOut.err OSError.connReset)).bs.error = BError.CONNECTION_RESET := by
  have h := c1_amended (BSocket_Init SockType.DGRAM true 40) (BAddr.ipv4 1 2)
    BIPAddr.invalid true (by decide)
  refine ⟨by decide, ?_, h.2.2.2.2.2.2.1⟩
  have h6 := h.2.2.2.2.2.1
  simpa using h6

/-- A fold of the parse loop over a run of non-matching control records
leaves the accumulated local address unchanged. -/
theorem parse_fold_other_only (l : List RCtrl) :
    ∀ acc : BIPAddr, (∀ m ∈ l, m = RCtrl.other) →
      l.foldl parse_step acc = acc := by
  induction l with
  | nil => intro acc _; rfl
  | cons x xs ih =>
      intro acc h
      have hx := h x (by simp)
      subst hx
      exact ih acc fun m hm => h m (by simp [hm])

/-- C2: `BSocket_RecvFromTo` degrades to `recvfromto_fallback` when
pktinfo support is absent (or, on Windows, when the WSARecvMsg pointer is
unavailable); the fallback behaves exactly as `BSocket_RecvFrom` and on
success reports no local address; on the supported path a successful
receive parses the control records so that an IPv4 IP_PKTINFO record
yields `IPv4(ipi_addr)`, an IPv6 IPV6_PKTINFO record yields
`IPv6(ipi6_addr)`, all other records are ignored, and with no matching
record the local address is None. -/
theorem c2_recvfromto :
    ∀ (p : Platform) (av : Bool) (bs : BSocket) (os : OSOutMsg),
      (bs.have_pktinfo = false →
        BSocket_RecvFromTo p av bs os = recvfromto_fallback p bs os) ∧
      (p = Platform.windows → av = false →
        BSocket_RecvFromTo p av bs os = recvfromto_fallback p bs os) ∧
      (recvfromto_fallback p bs os =
        ⟨(BSocket_RecvFrom p bs (toFromOut os)).res,
          (BSocket_RecvFrom p bs (toFromOut os)).bs,
          (BSocket_RecvFrom p bs (toFromOut os)).osCalled,
          (BSocket_RecvFrom p bs (toFromOut os)).addrOut,
          if (BSocket_RecvFrom p bs (toFromOut os)).res.isOk then
            some BIPAddr.invalid
          else none⟩) ∧
      (∀ (n : Nat) (src : SysAddr) (ctrl : List RCtrl),
        bs.have_pktinfo = true → (p = Platform.windows → av = true) →
        (limit_recv bs).1 = false →
        (BSocket_RecvFromTo p av bs (OSOutMsg.ok n src ctrl)).localOut =
          some (parse_pktinfo ctrl) ∧
        (BSocket_RecvFromTo p av bs (OSOutMsg.ok n src ctrl)).addrOut =
          addr_sys_to_socket src) ∧
      (∀ ctrl : List RCtrl, (∀ m ∈ ctrl, m = RCtrl.other) →
        parse_pktinfo ctrl = BIPAddr.invalid) ∧
      (∀ (l1 l2 : List RCtrl) (ip : Nat), (∀ m ∈ l2, m = RCtrl.other) →
        parse_pktinfo (l1 ++ RCtrl.ip_pktinfo ip :: l2) = BIPAddr.ipv4 ip) ∧
      (∀ (l1 l2 : List RCtrl) (ip : List Nat),
        (∀ m ∈ l2, m = RCtrl.other) →
        parse_pktinfo (l1 ++ RCtrl.ipv6_pktinfo ip :: l2) =
          BIPAddr.ipv6 ip) ∧
      (∀ l1 l2 : List RCtrl,
        parse_pktinfo (l1 ++ RCtrl.other :: l2) =
          parse_pktinfo (l1 ++ l2)) := by
  intro p av bs os
  refine ⟨?_, ?_, rfl, ?_, ?_, ?_, ?_, ?_⟩
  · intro hp
    unfold BSocket_RecvFromTo
    simp [hp]
  · intro hw hav
    subst hw; subst hav
    unfold BSocket_RecvFromTo
    cases hp : bs.have_pktinfo <;> simp [hp]
  · intro n src ctrl hp hwav hlim
    unfold BSocket_RecvFromTo
    cases p with
    | posix => simp [hp, hlim]
    | windows =>
        have hav := hwav rfl
        subst hav
        simp [hp, hlim]
  · intro ctrl h
    exact parse_fold_other_only ctrl BIPAddr.invalid h
  · intro l1 l2 ip h
    unfold parse_pktinfo
    rw [List.foldl_append]
    exact parse_fold_other_only l2 _ h
  · intro l1 l2 ip h
    unfold parse_pktinfo
    rw [List.foldl_append]
    exact parse_fold_other_only l2 _ h
  · intro l1 l2
    unfold parse_pktinfo
    rw [List.foldl_append, List.foldl_append]
    rfl

/-- C2 witness: a supported POSIX receive carrying one IPv4 PKTINFO
record among other records reports exactly that local address; the
degraded path reports None. -/
theorem c2_recvfromto_witness :
    (BSocket_RecvFromTo Platform.posix true (BSocket_Init SockType.DGRAM true 40)
        (OSOutMsg.ok 1 (addr_socket_to_sys (BAddr.ipv4 7 9))
          [RCtrl.other, RCtrl.ip_pktinfo 5, RCtrl.other])).localOut =
      some (BIPAddr.ipv4 5) ∧
    (BSocket_RecvFromTo Platform.posix true (BSocket_Init SockType.DGRAM false 40)
        (OSOutMsg.ok 1 (addr_socket_to_sys (BAddr.ipv4 7 9))
          [RCtrl.other, RCtrl.ip_pktinfo 5, RCtrl.other])).localOut =
      some BIPAddr.invalid := by
  have h := c2_recvfromto Platform.posix true (BSocket_Init SockType.DGRAM true 40)
    (OSOutMsg.ok 1 (addr_socket_to_sys (BAddr.ipv4 7 9))
      [RCtrl.other, RCtrl.ip_pktinfo 5, RCtrl.other])
  have h4 := (h.2.2.2.1 1 (addr_socket_to_sys (BAddr.ipv4 7 9))
    [RCtrl.other, RCtrl.ip_pktinfo 5, RCtrl.other] rfl (fun hw => by cases hw)
    (by decide)).1
  have h6 := h.2.2.2.2.2.1 [RCtrl.other] [RCtrl.other] 5
    (by intro m hm; simpa using hm)
  have hfall := c2_recvfromto Platform.posix true
    (BSocket_Init SockType.DGRAM false 40)
    (OSOutMsg.ok 1 (addr_socket_to_sys (BAddr.ipv4 7 9))
      [RCtrl.other, RCtrl.ip_pktinfo 5, RCtrl.other])
  have hf1 := hfall.1 rfl
  refine ⟨?_, ?_⟩
  · rw [h4]
    exact congrArg some h6
  · rw [hf1]
    decide

/-- The control length built by `buildCtrl` is the sum of
`CMSG_SPACE(payload size)` over the built records. -/
theorem buildCtrl_controllen (p : Platform) (la : BIPAddr) :
    (buildCtrl p la).2 =
      ((buildCtrl p la).1.map fun c => CMSG_SPACE (payloadSize c.payload)).sum := by
  cases la <;> cases p <;> simp [buildCtrl, payloadSize]

/-- C3: `BSocket_SendToFrom` degrades to `BSocket_SendTo` when pktinfo
support is absent (or, on Windows, when the WSASendMsg pointer is
unavailable); otherwise it submits exactly the ancillary records keyed by
the local-IP hint — none for None, one IPPROTO_IP/IP_PKTINFO record with
the source-selection field stamped (ipi_spec_dst on POSIX, ipi_addr on
Windows) for IPv4, one IPPROTO_IPV6/IPV6_PKTINFO record with ipi6_addr
stamped and interface index zero for IPv6 — with a control length equal
to the sum of CMSG_SPACE(payload) over the included records. -/
theorem c3_sendtofrom :
    ∀ (p : Platform) (av : Bool) (bs : BSocket) (addr : BAddr)
      (la : BIPAddr) (os : OSOut),
      (bs.have_pktinfo = false →
        BSocket_SendToFrom p av bs addr la os =
          ⟨(BSocket_SendTo p bs addr os).1,
            (BSocket_SendTo p bs addr os).2.1, STFAction.fellback⟩) ∧
      (p = Platform.windows → av = false →
        BSocket_SendToFrom p av bs addr la os =
          ⟨(BSocket_SendTo p bs addr os).1,
            (BSocket_SendTo p bs addr os).2.1, STFAction.fellback⟩) ∧
      (bs.have_pktinfo = true → (p = Platform.windows → av = true) →
        (BSocket_SendToFrom p av bs addr la os).action =
          STFAction.sentMsg (buildCtrl p la).1 (buildCtrl p la).2) ∧
      (buildCtrl p BIPAddr.invalid = ([], 0)) ∧
      (∀ ip : Nat,
        buildCtrl Platform.posix (BIPAddr.ipv4 ip) =
          ([{ cmsg_level := CLevel.IPPROTO_IP,
              cmsg_type := CType.IP_PKTINFO,
              cmsg_len := CMSG_LEN sizeof_in_pktinfo,
              payload := PktPayload.v4
                { ipi_ifindex := 0, ipi_spec_dst := ip, ipi_addr := 0 } }],
            CMSG_SPACE sizeof_in_pktinfo)) ∧
      (∀ ip : Nat,
        buildCtrl Platform.windows (BIPAddr.ipv4 ip) =
          ([{ cmsg_level := CLevel.IPPROTO_IP,
              cmsg_type := CType.IP_PKTINFO,
              cmsg_len := CMSG_LEN sizeof_in_pktinfo,
              payload := PktPayload.v4
                { ipi_ifindex := 0, ipi_spec_dst := 0, ipi_addr := ip } }],
            CMSG_SPACE sizeof_in_pktinfo)) ∧
      (∀ ip : List Nat,
        buildCtrl p (BIPAddr.ipv6 ip) =
          ([{ cmsg_level := CLevel.IPPROTO_IPV6,
              cmsg_type := CType.IPV6_PKTINFO,
              cmsg_len := CMSG_LEN sizeof_in6_pktinfo,
              payload := PktPayload.v6
                { ipi6_addr := ip, ipi6_ifindex := 0 } }],
            CMSG_SPACE sizeof_in6_pktinfo)) ∧
      ((buildCtrl p la).2 =
        ((buildCtrl p la).1.map fun c =>
          CMSG_SPACE (payloadSize c.payload)).sum) := by
  intro p av bs addr la os
  refine ⟨?_, ?_, ?_, ?_, fun ip => rfl, fun ip => rfl, fun ip => ?_,
    buildCtrl_controllen p la⟩
  · intro hp
    unfold BSocket_SendToFrom
    simp [hp]
  · intro hw hav
    subst hw; subst hav
    unfold BSocket_SendToFrom
    cases hp : bs.have_pktinfo <;> simp [hp]
  · intro hp hwav
    unfold BSocket_SendToFrom
    cases p with
    | posix => cases os <;> simp [hp]
    | windows =>
        have hav := hwav rfl
        subst hav
        cases os <;> simp [hp]
  · cases p <;> rfl
  · cases p <;> rfl

/-- C3 witness: on a supported POSIX DGRAM socket with an IPv4 hint, the
submitted message carries exactly one IP_PKTINFO record with
`ipi_spec_dst` stamped and control length `CMSG_SPACE(sizeof in_pktinfo)`. -/
theorem c3_sendtofrom_witness :
    (BSocket_SendToFrom Platform.posix true (BSocket_Init SockType.DGRAM true 40)
        (BAddr.ipv4 7 9) (BIPAddr.ipv4 5) (OSOut.ok 1)).action =
      STFAction.sentMsg
        [{ cmsg_level := CLevel.IPPROTO_IP, cmsg_type := CType.IP_PKTINFO,
           cmsg_len := CMSG_LEN sizeof_in_pktinfo,
           payload := PktPayload.v4
             { ipi_ifindex := 0, ipi_spec_dst := 5, ipi_addr := 0 } }]
        (CMSG_SPACE sizeof_in_pktinfo) := by
  have h := c3_sendtofrom Platform.posix true (BSocket_Init SockType.DGRAM true 40)
    (BAddr.ipv4 7 9) (BIPAddr.ipv4 5) (OSOut.ok 1)
  have h3 := h.2.2.1 rfl (fun hw => by cases hw)
  have h5 := h.2.2.2.2.1 5
  rw [h3, h5]

/-- When no handler in the list destroys the socket, the per-event part
of dispatch invokes every listed handler in order and keeps the state. -/
theorem dispatchRun_no_kill (bs : BSocket) (kills : HEvent → Bool) :
    ∀ l : List HEvent, (∀ e ∈ l, kills e = false) →
      dispatchRun bs kills l = (l.map DispatchCall.perEvent, some bs) := by
  intro l
  induction l with
  | nil => intro _; rfl
  | cons x xs ih =>
      intro h
      have hx := h x (by simp)
      have hrest := ih fun e he => h e (by simp [he])
      simp [dispatchRun, hx, hrest]

/-- When the first destroying handler is reached, the per-event part of
dispatch invokes exactly the handlers up to and including it, and the
socket state is gone. -/
theorem dispatchRun_first_kill (bs : BSocket) (kills : HEvent → Bool) :
    ∀ (l1 : List HEvent) (e : HEvent) (l2 : List HEvent),
      (∀ x ∈ l1, kills x = false) → kills e = true →
      dispatchRun bs kills (l1 ++ e :: l2) =
        ((l1 ++ [e]).map DispatchCall.perEvent, none) := by
  intro l1
  induction l1 with
  | nil =>
      intro e l2 _ he
      simp [dispatchRun, he]
  | cons x xs ih =>
      intro e l2 h he
      have hx := h x (by simp)
      have hrest := ih e l2 (fun y hy => h y (by simp [hy])) he
      simp [dispatchRun, hx, hrest]

/-- C4: if a global handler is installed, dispatch invokes it exactly
once with the whole returned-event set; otherwise the per-event handlers
are invoked in the fixed order READ, WRITE, ACCEPT, CONNECT, and if some
handler destroys the socket, dispatch aborts at once — no later handler
runs and no socket field is touched afterwards. -/
theorem c4_dispatch :
    ∀ (bs : BSocket) (returned : EventSet) (kills : HEvent → Bool),
      ((call_handlers bs returned true kills).1 =
        [DispatchCall.global returned]) ∧
      ((∀ e ∈ enabledEvents returned, kills e = false) →
        call_handlers bs returned false kills =
          ((enabledEvents returned).map DispatchCall.perEvent,
            some { bs with recv_num := 0 })) ∧
      (∀ (l1 : List HEvent) (e : HEvent) (l2 : List HEvent),
        enabledEvents returned = l1 ++ e :: l2 →
        (∀ x ∈ l1, kills x = false) → kills e = true →
        call_handlers bs returned false kills =
          ((l1 ++ [e]).map DispatchCall.perEvent, none)) := by
  intro bs returned kills
  refine ⟨rfl, ?_, ?_⟩
  · intro h
    unfold call_handlers
    simp [dispatchRun_no_kill _ kills _ h]
  · intro l1 e l2 hsplit h1 he
    unfold call_handlers
    simp [hsplit, dispatchRun_first_kill _ kills l1 e l2 h1 he]

/-- C4 witness: READ and WRITE both returned, the READ handler destroys
the socket; only the READ handler is invoked and the state is gone. -/
theorem c4_dispatch_witness :
    call_handlers (BSocket_Init SockType.STREAM false 40)
        ⟨true, true, false, false⟩ false
        (fun e => match e with | .read => true | _ => false) =
      ([DispatchCall.perEvent HEvent.read], none) := by
  have h := (c4_dispatch (BSocket_Init SockType.STREAM false 40)
    ⟨true, true, false, false⟩
    (fun e => match e with | .read => true | _ => false)).2.2
    [] HEvent.read [HEvent.write] rfl (by intro x hx; cases hx) rfl
  simpa using h

/-- If the per-event part of dispatch finishes with a live socket, the
final state is exactly the state it started from. -/
theorem dispatchRun_some_state (bs : BSocket) (kills : HEvent → Bool) :
    ∀ (l : List HEvent) (bs2 : BSocket),
      (dispatchRun bs kills l).2 = some bs2 → bs2 = bs := by
  intro l
  induction l with
  | nil =>
      intro bs2 h
      simp only [dispatchRun] at h
      exact (Option.some.inj h).symm
  | cons x xs ih =>
      intro bs2 h
      simp only [dispatchRun] at h
      by_cases hx : kills x = true
      · simp [hx] at h
      · simp [eq_false_of_ne_true hx] at h
        exact ih bs2 h

/-- Under an active, unexhausted cap the quota check consumes one unit. -/
theorem limit_recv_under_cap (bs : BSocket) (h1 : 0 < bs.recv_max)
    (h2 : bs.recv_num < bs.recv_max) :
    limit_recv bs = (false, { bs with recv_num := bs.recv_num + 1 }) := by
  unfold limit_recv
  rw [if_pos h1, if_neg (not_le.mpr h2)]

/-- A receive under an active, unexhausted cap consumes one unit of
quota, keeps the cap, and does invoke the OS. -/
theorem recv_under_cap (p : Platform) (bs : BSocket) (os : OSOut)
    (h1 : 0 < bs.recv_max) (h2 : bs.recv_num < bs.recv_max) :
    (BSocket_Recv p bs os).bs.recv_num = bs.recv_num + 1 ∧
    (BSocket_Recv p bs os).bs.recv_max = bs.recv_max ∧
    (BSocket_Recv p bs os).osCalled = true := by
  unfold BSocket_Recv
  rw [limit_recv_under_cap bs h1 h2]
  cases os <;> simp

/-- A receive attempted with the quota exhausted fails with LATER and
does not invoke the OS receive primitive. -/
theorem recv_at_cap (p : Platform) (bs : BSocket) (os : OSOut)
    (h1 : 0 < bs.recv_max) (h2 : bs.recv_max ≤ bs.recv_num) :
    (BSocket_Recv p bs os).res = SRes.fail ∧
    (BSocket_Recv p bs os).bs.error = BError.LATER ∧
    (BSocket_Recv p bs os).osCalled = false := by
  have hl : limit_recv bs = (true, bs) := by
    unfold limit_recv
    rw [if_pos h1, if_pos h2]
  unfold BSocket_Recv
  rw [hl]
  exact ⟨rfl, rfl, rfl⟩

/-- Iterating receives within the cap accumulates the counter one per
call and keeps the cap. -/
theorem iterRecv_count (p : Platform) :
    ∀ (oss : List OSOut) (bs : BSocket),
      0 < bs.recv_max → bs.recv_num + (oss.length : Int) ≤ bs.recv_max →
      (iterRecv p bs oss).recv_num = bs.recv_num + (oss.length : Int) ∧
      (iterRecv p bs oss).recv_max = bs.recv_max := by
  intro oss
  induction oss with
  | nil => intro bs _ _; simp [iterRecv]
  | cons o rest ih =>
      intro bs h1 h2
      simp only [List.length_cons] at h2
      push_cast at h2
      have h2' : bs.recv_num < bs.recv_max := by omega
      obtain ⟨ha, hb, _⟩ := recv_under_cap p bs o h1 h2'
      have hih := ih (BSocket_Recv p bs o).bs
        (by rw [hb]; exact h1)
        (by rw [ha, hb]; omega)
      unfold iterRecv
      refine ⟨?_, ?_⟩
      · rw [hih.1, ha]
        simp only [List.length_cons]
        push_cast
        ring
      · rw [hih.2, hb]

/-- C5: dispatch resets `recv_num` to 0 at its start; each of recv,
recv_from and recv_from_to consumes one unit of quota (invoking the OS)
while the cap `N > 0` is not exhausted; after `N` receive calls since the
dispatch reset, the (N+1)-th call fails with LATER without invoking any
OS receive primitive; and with `recv_max = -1` no cap is applied. -/
theorem c5_recv_quota :
    ∀ (p : Platform) (bs : BSocket) (returned : EventSet) (g : Bool)
      (kills : HEvent → Bool) (os : OSOut) (oss : List OSOut) (N : Int),
      (∀ bs2 : BSocket, (call_handlers bs returned g kills).2 = some bs2 →
        bs2.recv_num = 0) ∧
      (0 < bs.recv_max → bs.recv_num < bs.recv_max →
        (BSocket_Recv p bs os).bs.recv_num = bs.recv_num + 1 ∧
        (BSocket_Recv p bs os).osCalled = true) ∧
      (0 < bs.recv_max → bs.recv_num < bs.recv_max →
        ∀ osf : OSOutFrom,
          (BSocket_RecvFrom p bs osf).bs.recv_num = bs.recv_num + 1) ∧
      (0 < bs.recv_max → bs.recv_num < bs.recv_max →
        ∀ (av : Bool) (osm : OSOutMsg),
          (BSocket_RecvFromTo p av bs osm).bs.recv_num = bs.recv_num + 1) ∧
      (bs.recv_max = N → 0 < N → bs.recv_num = 0 → (oss.length : Int) = N →
        (BSocket_Recv p (iterRecv p bs oss) os).res = SRes.fail ∧
        (BSocket_Recv p (iterRecv p bs oss) os).bs.error = BError.LATER ∧
        (BSocket_Recv p (iterRecv p bs oss) os).osCalled = false) ∧
      (bs.recv_max = -1 →
        (limit_recv bs).1 = false ∧
        (BSocket_Recv p bs os).osCalled = true) := by
  intro p bs returned g kills os oss N
  have hfrom : ∀ (h1 : 0 < bs.recv_max) (h2 : bs.recv_num < bs.recv_max)
      (osf : OSOutFrom),
      (BSocket_RecvFrom p bs osf).bs.recv_num = bs.recv_num + 1 := by
    intro h1 h2 osf
    unfold BSocket_RecvFrom
    rw [limit_recv_under_cap bs h1 h2]
    cases osf <;> simp
  refine ⟨?_, ?_, ?_, ?_, ?_, ?_⟩
  · intro bs2 h
    unfold call_handlers at h
    by_cases hg : g = true
    · simp [hg] at h
      rw [← h]
    · simp [eq_false_of_ne_true hg] at h
      have := dispatchRun_some_state { bs with recv_num := 0 } kills
        (enabledEvents returned) bs2 h
      rw [this]
  · intro h1 h2
    obtain ⟨ha, _, hc⟩ := recv_under_cap p bs os h1 h2
    exact ⟨ha, hc⟩
  · intro h1 h2
    exact hfrom h1 h2
  · intro h1 h2 av osm
    unfold BSocket_RecvFromTo recvfromto_fallback
    cases hp : bs.have_pktinfo <;> cases p <;> cases av <;>
      simp [hp, hfrom h1 h2, limit_recv_under_cap bs h1 h2] <;>
      cases osm <;> simp [toFromOut, hfrom h1 h2]
  · intro hmax hN hnum hlen
    have h1 : 0 < bs.recv_max := by omega
    have hit := iterRecv_count p oss bs h1 (by omega)
    have hcap : (iterRecv p bs oss).recv_max ≤ (iterRecv p bs oss).recv_num := by
      rw [hit.1, hit.2]
      omega
    exact recv_at_cap p _ os (by rw [hit.2]; exact h1) hcap
  · intro hmax
    have hl : limit_recv bs = (false, bs) := by
      unfold limit_recv
      rw [if_neg (by omega)]
    refine ⟨by rw [hl], ?_⟩
    unfold BSocket_Recv
    rw [hl]
    cases os <;> simp

/-- C5 witness: with a cap of 2 and a fresh quota, two receives go
through and the third fails with LATER without touching the OS; with a
cap of -1 the quota check never fires. -/
theorem c5_recv_quota_witness :
    (BSocket_Recv Platform.posix
        (iterRecv Platform.posix
          (BSocket_SetRecvMax (BSocket_Init SockType.DGRAM true 40) 2)
          [OSOut.ok 1, OSOut.ok 1])
        (OSOut.ok 1)).res = SRes.fail ∧
    (BSocket_Recv Platform.posix
        (iterRecv Platform.posix
          (BSocket_SetRecvMax (BSocket_Init SockType.DGRAM true 40) 2)
          [OSOut.ok 1, OSOut.ok 1])
        (OSOut.ok 1)).bs.error = BError.LATER ∧
    (BSocket_Recv Platform.posix
        (iterRecv Platform.posix
          (BSocket_SetRecvMax (BSocket_Init SockType.DGRAM true 40) 2)
          [OSOut.ok 1, OSOut.ok 1])
        (OSOut.ok 1)).osCalled = false ∧
    (limit_recv (BSocket_SetRecvMax (BSocket_Init SockType.DGRAM true 40)
        (-1))).1 = false := by
  have h := c5_recv_quota Platform.posix
    (BSocket_SetRecvMax (BSocket_Init SockType.DGRAM true 40) 2)
    EventSet.none false (fun _ => false) (OSOut.ok 1)
    [OSOut.ok 1, OSOut.ok 1] 2
  have h5 := h.2.2.2.2.1 rfl (by decide) rfl (by decide)
  have h2 := c5_recv_quota Platform.posix
    (BSocket_SetRecvMax (BSocket_Init SockType.DGRAM true 40) (-1))
    EventSet.none false (fun _ => false) (OSOut.ok 1) [] 0
  exact ⟨h5.1, h5.2.1, h5.2.2, (h2.2.2.2.2.2 rfl).1⟩

/-- C7: the non-blocking connect state machine.  From IDLE, a synchronous
OS completion sets `error := NONE`, succeeds and stays IDLE; the
platform's pending code moves to IN_PROGRESS with `error := IN_PROGRESS`
and fails; and from COMPLETED, `BSocket_GetConnectResult` returns the
stored completion result and resets the machine to IDLE. -/
theorem c7_connect_state_machine :
    ∀ (p : Platform) (bs bs2 : BSocket) (addr : BAddr),
      BSocket_Connect_pre bs →
      BSocket_GetConnectResult_pre bs2 →
      ((BSocket_Connect p bs addr OSOutSimple.ok).1 = SRes.ok 0 ∧
       (BSocket_Connect p bs addr OSOutSimple.ok).2.error = BError.NONE ∧
       (BSocket_Connect p bs addr OSOutSimple.ok).2.connecting_status = 0) ∧
      ((BSocket_Connect p bs addr
          (OSOutSimple.err (connect_pending p))).1 = SRes.fail ∧
       (BSocket_Connect p bs addr
          (OSOutSimple.err (connect_pending p))).2.connecting_status = 1 ∧
       (BSocket_Connect p bs addr
          (OSOutSimple.err (connect_pending p))).2.error
         = BError.IN_PROGRESS) ∧
      ((BSocket_GetConnectResult bs2).1 = bs2.connecting_result ∧
       (BSocket_GetConnectResult bs2).2.connecting_status = 0) := by
  intro p bs bs2 addr h1 h2
  refine ⟨⟨rfl, rfl, h1⟩, ?_, rfl, rfl⟩
  simp [BSocket_Connect]

/-- C7 witness: the state machine evaluated on concrete sockets in the
IDLE and COMPLETED states. -/
theorem c7_connect_state_machine_witness :
    BSocket_Connect_pre (BSocket_Init SockType.STREAM false 40) ∧
    (BSocket_Connect Platform.posix (BSocket_Init SockType.STREAM false 40)
        (BAddr.ipv4 1 2)
        (OSOutSimple.err (connect_pending Platform.posix))).2.error
      = BError.IN_PROGRESS ∧
    (BSocket_GetConnectResult
        { BSocket_Init SockType.STREAM false 40 with
            connecting_status := 2,
            connecting_result := BError.CONNECTION_REFUSED }).1
      = BError.CONNECTION_REFUSED := by
  have h := c7_connect_state_machine Platform.posix
    (BSocket_Init SockType.STREAM false 40)
    { BSocket_Init SockType.STREAM false 40 with
        connecting_status := 2, connecting_result := BError.CONNECTION_REFUSED }
    (BAddr.ipv4 1 2) rfl rfl
  exact ⟨rfl, h.2.1.2.2, h.2.2.1⟩

/-- C10: `BSocket_SetRecvMax` accepts only a positive cap or -1 (its
assertion rejects 0), stores the new cap and resets the per-dispatch
counter to 0. -/
theorem c10_set_recv_max :
    (∀ (bs : BSocket) (max : Int), BSocket_SetRecvMax_pre max →
        (BSocket_SetRecvMax bs max).recv_max = max ∧
        (BSocket_SetRecvMax bs max).recv_num = 0) ∧
      ¬BSocket_SetRecvMax_pre 0 := by
  refine ⟨fun bs max _ => ⟨rfl, rfl⟩, ?_⟩
  intro h
  rcases h with h | h <;> omega

/-- C10 witness: setting the cap to 5 on a concrete socket. -/
theorem c10_set_recv_max_witness :
    BSocket_SetRecvMax_pre 5 ∧
    (BSocket_SetRecvMax (BSocket_Init SockType.STREAM false 40) 5).recv_max
      = 5 ∧
    (BSocket_SetRecvMax (BSocket_Init SockType.STREAM false 40) 5).recv_num
      = 0 := by
  have h := c10_set_recv_max.1 (BSocket_Init SockType.STREAM false 40) 5
    (Or.inl (by decide))
  exact ⟨Or.inl (by decide), h.1, h.2⟩

/-- The assertion-guarded `BSocket_EnableEvent` establishes the
mutual-exclusion invariant outright. -/
theorem compat_enable (bs : BSocket) (e : HEvent)
    (h : BSocket_EnableEvent_pre bs e) :
    eventsCompatible (BSocket_EnableEvent bs e).waitEvents = true := by
  obtain ⟨hc, -, -⟩ := h
  cases e
  · simp [BSocket_EnableEvent, EventSet.set, eventsCompatible, hc.1, hc.2]
  · simp [BSocket_EnableEvent, EventSet.set, eventsCompatible, hc.1, hc.2]
  · simp [BSocket_EnableEvent, EventSet.set, eventsCompatible,
      hc.1, hc.2.1, hc.2.2]
  · simp [BSocket_EnableEvent, EventSet.set, eventsCompatible,
      hc.1, hc.2.1, hc.2.2]

/-- Clearing an event flag preserves the mutual-exclusion invariant. -/
theorem compat_clear (es : EventSet) (e : HEvent)
    (h : eventsCompatible es = true) :
    eventsCompatible (es.clear e) = true := by
  rcases es with ⟨r, w, a, c⟩
  revert h
  cases e <;> cases r <;> cases w <;> cases a <;> cases c <;> decide

/-- C6 (counterexample): from a freshly initialised socket, installing a
global handler and then calling `BSocket_SetGlobalEvents` with READ and
CONNECT both set — every assertion along the way holding — yields a
reachable state whose `waitEvents` violates the mutual-exclusion
invariant, because `BSocket_SetGlobalEvents` stores an arbitrary mask
unchecked. -/
theorem c6_counterexample :
    BSocket_AddGlobalEventHandler_pre (BSocket_Init SockType.STREAM false 40) ∧
    BSocket_SetGlobalEvents_pre
      (BSocket_AddGlobalEventHandler (BSocket_Init SockType.STREAM false 40)) ∧
    eventsCompatible (BSocket_Init SockType.STREAM false 40).waitEvents
      = true ∧
    (BSocket_SetGlobalEvents
        (BSocket_AddGlobalEventHandler (BSocket_Init SockType.STREAM false 40))
        ⟨true, false, false, true⟩).waitEvents.read = true ∧
    (BSocket_SetGlobalEvents
        (BSocket_AddGlobalEventHandler (BSocket_Init SockType.STREAM false 40))
        ⟨true, false, false, true⟩).waitEvents.connect = true ∧
    eventsCompatible
        (BSocket_SetGlobalEvents
          (BSocket_AddGlobalEventHandler (BSocket_Init SockType.STREAM false 40))
          ⟨true, false, false, true⟩).waitEvents
      = false :=
  ⟨⟨rfl, rfl⟩, rfl, rfl, rfl, rfl, rfl⟩

/-- C6 (amended): the mutual-exclusion invariant on `waitEvents` holds
initially and is preserved by `BSocket_EnableEvent` (whose assertions
enforce it), `BSocket_DisableEvent`, `BSocket_RemoveEventHandler` and
`BSocket_RemoveGlobalEventHandler`, while the handler-installation calls
do not change `waitEvents` at all; it is NOT maintained by
`BSocket_SetGlobalEvents`, which overwrites the mask unchecked (see the
counterexample). -/
theorem c6_amended :
    ∀ (bs : BSocket) (e : HEvent) (t : SockType) (pk : Bool) (d : Int),
      (eventsCompatible (BSocket_Init t pk d).waitEvents = true) ∧
      (BSocket_EnableEvent_pre bs e →
        eventsCompatible (BSocket_EnableEvent bs e).waitEvents = true) ∧
      (eventsCompatible bs.waitEvents = true →
        eventsCompatible (BSocket_DisableEvent bs e).waitEvents = true) ∧
      (eventsCompatible bs.waitEvents = true →
        eventsCompatible (BSocket_RemoveEventHandler bs e).waitEvents
          = true) ∧
      (eventsCompatible
          (BSocket_RemoveGlobalEventHandler bs).waitEvents = true) ∧
      ((BSocket_AddEventHandler bs e).waitEvents = bs.waitEvents) ∧
      ((BSocket_AddGlobalEventHandler bs).waitEvents = bs.waitEvents) := by
  intro bs e t pk d
  refine ⟨rfl, compat_enable bs e, ?_, ?_, rfl, rfl, rfl⟩
  · intro h
    exact compat_clear bs.waitEvents e h
  · intro h
    unfold BSocket_RemoveEventHandler
    cases hw : bs.waitEvents.has e <;>
      simp [hw, BSocket_DisableEvent, compat_clear bs.waitEvents e h, h]

/-- C6 (amended) witness: enabling READ on a socket with a READ handler
keeps the invariant. -/
theorem c6_amended_witness :
    eventsCompatible
        (BSocket_EnableEvent
          (BSocket_AddEventHandler (BSocket_Init SockType.STREAM false 40)
            HEvent.read)
          HEvent.read).waitEvents = true :=
  (c6_amended
    (BSocket_AddEventHandler (BSocket_Init SockType.STREAM false 40)
      HEvent.read)
    HEvent.read SockType.STREAM false 40).2.1 ⟨⟨rfl, rfl⟩, rfl, rfl⟩

/-- The common data-transfer error switch never reports success. -/
theorem map_data_error_ne_none (p : Platform) (t : SockType) (e : OSError) :
    map_data_error p t e ≠ BError.NONE := by
  cases p <;> cases t <;> cases e <;> decide

/-- The bind error switch never reports success. -/
theorem map_bind_error_ne_none (p : Platform) (e : OSError) :
    map_bind_error p e ≠ BError.NONE := by
  cases p <;> cases e <;> decide

/-- `BSocket_Connect` returns success exactly when it stores NONE. -/
theorem errSlot_connect (p : Platform) (bs : BSocket) (addr : BAddr)
    (os : OSOutSimple) :
    (BSocket_Connect p bs addr os).1.isOk = true ↔
      (BSocket_Connect p bs addr os).2.error = BError.NONE := by
  cases os with
  | ok => simp [BSocket_Connect, SRes.isOk]
  | err e =>
      by_cases he : e = connect_pending p <;>
        simp [BSocket_Connect, he, SRes.isOk]

/-- `BSocket_Bind` returns success exactly when it stores NONE. -/
theorem errSlot_bind (p : Platform) (bs : BSocket) (addr : BAddr)
    (os : OSOutSimple) :
    (BSocket_Bind p bs addr os).1.isOk = true ↔
      (BSocket_Bind p bs addr os).2.1.error = BError.NONE := by
  cases os with
  | ok => simp [BSocket_Bind, SRes.isOk]
  | err e => simp [BSocket_Bind, SRes.isOk, map_bind_error_ne_none p e]

/-- `BSocket_Listen` returns success exactly when it stores NONE. -/
theorem errSlot_listen (bs : BSocket) (os : OSOutSimple) :
    (BSocket_Listen bs os).1.isOk = true ↔
      (BSocket_Listen bs os).2.error = BError.NONE := by
  cases os with
  | ok => simp [BSocket_Listen, SRes.isOk]
  | err e =>
      by_cases he : e = OSError.addrInUse <;>
        simp [BSocket_Listen, he, SRes.isOk]

/-- `BSocket_Accept` returns success exactly when it stores NONE. -/
theorem errSlot_accept (bs : BSocket) (os : AcceptOut)
    (wantNew setupOk wantAddr : Bool) :
    (BSocket_Accept bs os wantNew setupOk wantAddr).1.isOk = true ↔
      (BSocket_Accept bs os wantNew setupOk wantAddr).2.1.error
        = BError.NONE := by
  cases os with
  | err e =>
      by_cases he : e = OSError.wouldBlock <;>
        simp [BSocket_Accept, he, SRes.isOk]
  | ok src =>
      cases wantNew <;> cases setupOk <;> simp [BSocket_Accept, SRes.isOk]

/-- `BSocket_Send` returns success exactly when it stores NONE. -/
theorem errSlot_send (p : Platform) (bs : BSocket) (os : OSOut) :
    (BSocket_Send p bs os).1.isOk = true ↔
      (BSocket_Send p bs os).2.error = BError.NONE := by
  cases os with
  | ok n => simp [BSocket_Send, SRes.isOk]
  | err e => simp [BSocket_Send, SRes.isOk, map_data_error_ne_none p bs.type e]

/-- `BSocket_SendTo` returns success exactly when it stores NONE. -/
theorem errSlot_sendto (p : Platform) (bs : BSocket) (addr : BAddr)
    (os : OSOut) :
    (BSocket_SendTo p bs addr os).1.isOk = true ↔
      (BSocket_SendTo p bs addr os).2.1.error = BError.NONE := by
  cases os with
  | ok n => simp [BSocket_SendTo, SRes.isOk]
  | err e =>
      simp [BSocket_SendTo, SRes.isOk, map_data_error_ne_none p bs.type e]

/-- `BSocket_Recv` returns success exactly when it stores NONE. -/
theorem errSlot_recv (p : Platform) (bs : BSocket) (os : OSOut) :
    (BSocket_Recv p bs os).res.isOk = true ↔
      (BSocket_Recv p bs os).bs.error = BError.NONE := by
  unfold BSocket_Recv
  cases hl : (limit_recv bs).1 with
  | true => simp [hl, SRes.isOk]
  | false =>
      cases os with
      | ok n => simp [hl, SRes.isOk]
      | err e =>
          simp [hl, SRes.isOk,
            map_data_error_ne_none p (limit_recv bs).2.type e]

/-- `BSocket_RecvFrom` returns success exactly when it stores NONE. -/
theorem errSlot_recvfrom (p : Platform) (bs : BSocket) (os : OSOutFrom) :
    (BSocket_RecvFrom p bs os).res.isOk = true ↔
      (BSocket_RecvFrom p bs os).bs.error = BError.NONE := by
  unfold BSocket_RecvFrom
  cases hl : (limit_recv bs).1 with
  | true => simp [hl, SRes.isOk]
  | false =>
      cases os with
      | ok n src => simp [hl, SRes.isOk]
      | err e =>
          simp [hl, SRes.isOk,
            map_data_error_ne_none p (limit_recv bs).2.type e]

/-- `BSocket_SendToFrom` returns success exactly when it stores NONE. -/
theorem errSlot_sendtofrom (p : Platform) (av : Bool) (bs : BSocket)
    (addr : BAddr) (la : BIPAddr) (os : OSOut) :
    (BSocket_SendToFrom p av bs addr la os).res.isOk = true ↔
      (BSocket_SendToFrom p av bs addr la os).bs.error = BError.NONE := by
  unfold BSocket_SendToFrom BSocket_SendTo
  cases hp : bs.have_pktinfo <;> cases p <;> cases av <;> cases os <;>
    simp [hp, SRes.isOk, map_data_error_ne_none]

/-- `BSocket_RecvFromTo` returns success exactly when it stores NONE. -/
theorem errSlot_recvfromto (p : Platform) (av : Bool) (bs : BSocket)
    (os : OSOutMsg) :
    (BSocket_RecvFromTo p av bs os).res.isOk = true ↔
      (BSocket_RecvFromTo p av bs os).bs.error = BError.NONE := by
  unfold BSocket_RecvFromTo recvfromto_fallback
  cases hp : bs.have_pktinfo <;> cases p <;> cases av <;>
    first
      | (simpa [hp] using errSlot_recvfrom _ bs (toFromOut os))
      | (cases hl : (limit_recv bs).1 with
          | true => simp [hp, hl, SRes.isOk]
          | false =>
              cases os with
              | ok n src ctrl => simp [hp, hl, SRes.isOk]
              | err e =>
                  simp [hp, hl, SRes.isOk,
                    map_data_error_ne_none _ (limit_recv bs).2.type e])

/-- `BSocket_GetPeerName` returns success exactly when it stores NONE. -/
theorem errSlot_getpeername (bs : BSocket) (os : PeerOut) :
    (BSocket_GetPeerName bs os).1.isOk = true ↔
      (BSocket_GetPeerName bs os).2.1.error = BError.NONE := by
  cases os <;> simp [BSocket_GetPeerName, SRes.isOk]

/-- C9: every fallible operation — connect, bind, listen, accept, send,
recv, send_to, recv_from, send_to_from, recv_from_to, get_peer_name —
writes the error slot on every call, and the slot reads NONE exactly
when the call returned the success signal. -/
theorem c9_error_slot :
    ∀ (p : Platform) (bs : BSocket) (addr : BAddr) (la : BIPAddr)
      (av wantNew setupOk wantAddr : Bool) (oss : OSOutSimple)
      (os : OSOut) (osf : OSOutFrom) (osm : OSOutMsg) (osa : AcceptOut)
      (osp : PeerOut),
      ((BSocket_Connect p bs addr oss).1.isOk = true ↔
        (BSocket_Connect p bs addr oss).2.error = BError.NONE) ∧
      ((BSocket_Bind p bs addr oss).1.isOk = true ↔
        (BSocket_Bind p bs addr oss).2.1.error = BError.NONE) ∧
      ((BSocket_Listen bs oss).1.isOk = true ↔
        (BSocket_Listen bs oss).2.error = BError.NONE) ∧
      ((BSocket_Accept bs osa wantNew setupOk wantAddr).1.isOk = true ↔
        (BSocket_Accept bs osa wantNew setupOk wantAddr).2.1.error
          = BError.NONE) ∧
      ((BSocket_Send p bs os).1.isOk = true ↔
        (BSocket_Send p bs os).2.error = BError.NONE) ∧
      ((BSocket_Recv p bs os).res.isOk = true ↔
        (BSocket_Recv p bs os).bs.error = BError.NONE) ∧
      ((BSocket_SendTo p bs addr os).1.isOk = true ↔
        (BSocket_SendTo p bs addr os).2.1.error = BError.NONE) ∧
      ((BSocket_RecvFrom p bs osf).res.isOk = true ↔
        (BSocket_RecvFrom p bs osf).bs.error = BError.NONE) ∧
      ((BSocket_SendToFrom p av bs addr la os).res.isOk = true ↔
        (BSocket_SendToFrom p av bs addr la os).bs.error = BError.NONE) ∧
      ((BSocket_RecvFromTo p av bs osm).res.isOk = true ↔
        (BSocket_RecvFromTo p av bs osm).bs.error = BError.NONE) ∧
      ((BSocket_GetPeerName bs osp).1.isOk = true ↔
        (BSocket_GetPeerName bs osp).2.1.error = BError.NONE) :=
  fun p bs addr la av wantNew setupOk wantAddr oss os osf osm osa osp =>
    ⟨errSlot_connect p bs addr oss, errSlot_bind p bs addr oss,
      errSlot_listen bs oss, errSlot_accept bs osa wantNew setupOk wantAddr,
      errSlot_send p bs os, errSlot_recv p bs os, errSlot_sendto p bs addr os,
      errSlot_recvfrom p bs osf, errSlot_sendtofrom p av bs addr la os,
      errSlot_recvfromto p av bs osm, errSlot_getpeername bs osp⟩

end BadVPN
